import Mathlib

/-!
Verification of the federated-search orchestrator of `src/app.py`
(`pco_api_call` and `search_context`).

Modelling choices, translated from the source:

* `pco_api_call` wraps `requests.get` in `try/except` and returns either the
  raw `requests.Response` or `None` (any transport exception).  A run of
  `search_context` issues at most six calls (root probe, people primary,
  people retry, services, calendar, groups); a `Backend` records, for each of
  those call sites, what `pco_api_call` returns if that call is issued.
* A `requests.Response` carries a status code and a body; `resp.json()` is
  called lazily by `search_context` and raises a JSON decode error when the
  body is undecodable, which we model by `body : Option payload`
  (`none` = undecodable).  `resp.json()` is NOT inside any `try/except` in
  `app.py`, so that error propagates out of `search_context`; the model
  therefore returns `Except PyErr (String × String)`.
* Python truthiness of a `requests.Response` (`if res and ...`) is
  `Response.__bool__`, which is `Response.ok`: true iff the status code is
  not in [400, 600).  In particular a 403 response is falsy, so the
  `elif res and res.status_code == 403` branches of `app.py` can never run.
* Record dictionaries are accessed as `p['attributes']` (raising `KeyError`
  when absent, modelled by `attributes : Option Attrs`) and then with
  `.get(field, default)` (never raising, modelled by `Option.getD`).
* Appends to `context_data`/`debug_log` that happen before an exception is
  raised are kept in the run state (`StepOut`), together with the list of
  calls actually issued, so that "which calls were attempted" is observable
  even for runs that raise.
-/

namespace PCO

/-- An uncaught Python exception escaping `search_context`. -/
inductive PyErr where
  | jsonDecodeError
  | keyError
  deriving DecidableEq, Repr

/-- A `requests.Response`: a status code and a lazily decoded JSON body
(`none` = undecodable, `.json()` raises). -/
structure Response (α : Type) where
  status : Nat
  body : Option α
  deriving DecidableEq, Repr

/-- `requests.Response.ok`: true iff `status_code` is not a 4xx/5xx. -/
def Response.respOk {α : Type} (r : Response α) : Bool :=
  !(400 ≤ r.status && r.status < 600)

/-- Python truthiness of `pco_api_call`'s result: `None` is falsy, a
`Response` is truthy iff `ok`. -/
def truthy {α : Type} : Option (Response α) → Bool
  | none => false
  | some r => r.respOk

/-- `attributes` of the organization returned by the root probe. -/
structure OrgAttrs where
  name : Option String
  deriving DecidableEq, Repr

/-- The `data` object of the root probe payload. -/
structure OrgData where
  attributes : Option OrgAttrs
  deriving DecidableEq, Repr

/-- Decoded JSON payload of the root probe. -/
structure ProbePayload where
  data : Option OrgData
  deriving DecidableEq, Repr

/-- The `attributes` dictionary of one record; each field is optional. -/
structure Attrs where
  name : Option String
  status : Option String
  deriving DecidableEq, Repr

/-- One record of a `data` list; `attributes` itself may be missing
(bracket access `p['attributes']` then raises `KeyError`). -/
structure Record where
  attributes : Option Attrs
  deriving DecidableEq, Repr

/-- Decoded JSON payload of a list endpoint (`.get("data", [])`). -/
structure ListPayload where
  data : Option (List Record)
  deriving DecidableEq, Repr

/-- The six `pco_api_call` sites of `search_context`, in source order. -/
inductive ApiCall where
  | probe
  | peoplePrimary
  | peopleRetry
  | services
  | calendar
  | groups
  deriving DecidableEq, Repr

/-- One backend behavior: what `pco_api_call` returns at each call site, if
that call is issued (`none` = transport exception, `pco_api_call` returns
`None`). -/
structure Backend where
  probe : Option (Response ProbePayload)
  peoplePrimary : Option (Response ListPayload)
  peopleRetry : Option (Response ListPayload)
  services : Option (Response ListPayload)
  calendar : Option (Response ListPayload)
  groups : Option (Response ListPayload)
  deriving DecidableEq, Repr

/-- Accumulated state of one `search_context` run: calls issued, the
`context_data` and `debug_log` lists, and the pending uncaught exception. -/
structure StepOut where
  calls : List ApiCall
  frags : List String
  logs : List String
  err : Option PyErr
  deriving DecidableEq, Repr

/-- Sequencing of two code blocks: an uncaught exception in the first
prevents the second from running at all. -/
def seqStep (a b : StepOut) : StepOut :=
  match a.err with
  | some _ => a
  | none => ⟨a.calls ++ b.calls, a.frags ++ b.frags, a.logs ++ b.logs, b.err⟩

/-- `res.json().get("data", {}).get("attributes", {}).get("name", "Unknown Org")`. -/
def orgName (p : ProbePayload) : String :=
  ((p.data.bind OrgData.attributes).bind OrgAttrs.name).getD "Unknown Org"

/-- The string rendered for one people record whose `attributes` dictionary
is present: `.get` supplies "Unknown" for each missing field. -/
def renderPersonTotal (a : Attrs) : String :=
  a.name.getD "Unknown" ++ " (" ++ a.status.getD "Unknown" ++ ")"

/-- `f"{p['attributes'].get('name', 'Unknown')} ({p['attributes'].get('status', 'Unknown')})"`;
raises `KeyError` when the record has no `attributes`. -/
def renderPerson (p : Record) : Except PyErr String :=
  match p.attributes with
  | none => .error .keyError
  | some a => .ok (renderPersonTotal a)

/-- `s['attributes'].get('name', 'Unnamed')`; raises `KeyError` when the
record has no `attributes`. -/
def renderName (r : Record) : Except PyErr String :=
  match r.attributes with
  | none => .error .keyError
  | some a => .ok (a.name.getD "Unnamed")

/-- Python `query.strip()`: the query with leading and trailing whitespace
removed (written out with `dropWhile` so that it evaluates by `rfl`). -/
def pyStrip (s : String) : String :=
  String.mk (((s.toList.dropWhile Char.isWhitespace).reverse.dropWhile
    Char.isWhitespace).reverse)

/-- Python `clean_query.split(' ')[0]`, the First Token: the characters
before the first space (`split(' ')` keeps empty segments, so segment 0 is
exactly the run of non-space characters at the front). -/
def firstToken (clean : String) : String :=
  String.mk (clean.toList.takeWhile fun c => c ≠ ' ')

/-- A Python list comprehension `[f(r) for r in rs]`: renders left to right,
the first raised exception propagates. -/
def renderAll (f : Record → Except PyErr String) : List Record → Except PyErr (List String)
  | [] => .ok []
  | r :: t =>
    match f r with
    | .error e => .error e
    | .ok s =>
      match renderAll f t with
      | .error e => .error e
      | .ok ss => .ok (s :: ss)

/-- Step 0 of `search_context`: the organization probe (app.py lines 50-55). -/
def probeStep (b : Backend) : StepOut :=
  match b.probe with
  | some org_res =>
    if org_res.respOk && (org_res.status == 200) then
      match org_res.body with
      | some p =>
        ⟨[.probe], [], ["🏢 Connected to Organization: **" ++ orgName p ++ "**"], none⟩
      | none => ⟨[.probe], [], [], some .jsonDecodeError⟩
    else ⟨[.probe], [], ["❌ Org Check: Failed to connect to PCO Root."], none⟩
  | none => ⟨[.probe], [], ["❌ Org Check: Failed to connect to PCO Root."], none⟩

/-- The retry block of the People search (app.py lines 76-85).  Note the
`if retry_res and retry_res.status_code == 200` has no `else`: a failed
retry call appends no diagnostic line. -/
def peopleRetryStep (b : Backend) (first_word : String) : StepOut :=
  match b.peopleRetry with
  | some retry_res =>
    if retry_res.respOk && (retry_res.status == 200) then
      match retry_res.body with
      | some payload =>
        let retry_data := payload.data.getD []
        if retry_data.isEmpty then
          ⟨[.peopleRetry], [],
           ["❌ People API: Retry also found 0 records for '" ++ first_word ++ "'."], none⟩
        else
          let okLine := "✅ People API: Retry found " ++ toString retry_data.length ++
            " matches for '" ++ first_word ++ "'"
          match renderAll renderPerson retry_data with
          | .ok names =>
            ⟨[.peopleRetry],
             ["No exact match, but found similar names: " ++ String.intercalate ", " names],
             [okLine], none⟩
          | .error e => ⟨[.peopleRetry], [], [okLine], some e⟩
      | none => ⟨[.peopleRetry], [], [], some .jsonDecodeError⟩
    else ⟨[.peopleRetry], [], [], none⟩
  | none => ⟨[.peopleRetry], [], [], none⟩

/-- Step 1 of `search_context`: the People search with retry logic
(app.py lines 57-91).  The `elif res and res.status_code == 403` branch is
translated faithfully; since `truthy` is false on a 403 response, it is
unreachable. -/
def peopleStep (b : Backend) (clean_query : String) : StepOut :=
  match b.peoplePrimary with
  | some res =>
    if res.respOk && (res.status == 200) then
      match res.body with
      | some payload =>
        let people := payload.data.getD []
        if people.isEmpty then
          let warnLine := "⚠️ People API: 0 results for '" ++ clean_query ++
            "'. Trying partial search..."
          let first_word := firstToken clean_query
          if first_word.length > 2 && first_word != clean_query then
            seqStep ⟨[.peoplePrimary], [], [warnLine], none⟩ (peopleRetryStep b first_word)
          else
            ⟨[.peoplePrimary], [],
             [warnLine, "❌ People API: Partial search skipped (query too short)."], none⟩
        else
          let okLine := "✅ People API: Found " ++ toString people.length ++
            " matches for '" ++ clean_query ++ "'"
          match renderAll renderPerson people with
          | .ok names =>
            ⟨[.peoplePrimary],
             ["Found in People Directory: " ++ String.intercalate ", " names],
             [okLine], none⟩
          | .error e => ⟨[.peoplePrimary], [], [okLine], some e⟩
      | none => ⟨[.peoplePrimary], [], [], some .jsonDecodeError⟩
    else if res.respOk && (res.status == 403) then
      ⟨[.peoplePrimary], ["ERROR: Permission Denied to People Database."],
       ["❌ People API: 403 Forbidden (Check API Key 'People' Scope)"], none⟩
    else ⟨[.peoplePrimary], [], [], none⟩
  | none => ⟨[.peoplePrimary], [], [], none⟩

/-- Step 2 of `search_context`: the Services (Gatherings) listing
(app.py lines 95-103).  On every 200 the fragment is appended, even when
`data` is empty; the dead 403 branch is translated faithfully. -/
def servicesStep (b : Backend) : StepOut :=
  match b.services with
  | some res =>
    if res.respOk && (res.status == 200) then
      match res.body with
      | some payload =>
        let data := payload.data.getD []
        let okLine := "✅ Services API: Success. Found " ++ toString data.length ++
          " Gathering Types."
        match renderAll renderName (data.take 8) with
        | .ok types =>
          ⟨[.services], ["Available Gathering Types: " ++ String.intercalate ", " types],
           [okLine], none⟩
        | .error e => ⟨[.services], [], [okLine], some e⟩
      | none => ⟨[.services], [], [], some .jsonDecodeError⟩
    else if res.respOk && (res.status == 403) then
      ⟨[.services], [], ["❌ Services API: 403 Forbidden"], none⟩
    else ⟨[.services], [], [], none⟩
  | none => ⟨[.services], [], [], none⟩

/-- Step 3 of `search_context`: the Calendar search (app.py lines 106-114).
A non-200 outcome appends nothing at all (there is no `elif` here). -/
def calendarStep (b : Backend) : StepOut :=
  match b.calendar with
  | some res =>
    if res.respOk && (res.status == 200) then
      match res.body with
      | some payload =>
        let events := payload.data.getD []
        if events.isEmpty then
          ⟨[.calendar], [], ["✅ Calendar API: 0 events found."], none⟩
        else
          let okLine := "✅ Calendar API: Found " ++ toString events.length ++ " events."
          match renderAll renderName events with
          | .ok ns =>
            ⟨[.calendar], ["Found in Calendar: " ++ String.intercalate ", " ns],
             [okLine], none⟩
          | .error e => ⟨[.calendar], [], [okLine], some e⟩
      | none => ⟨[.calendar], [], [], some .jsonDecodeError⟩
    else ⟨[.calendar], [], [], none⟩
  | none => ⟨[.calendar], [], [], none⟩

/-- Step 4 of `search_context`: the Groups search (app.py lines 117-123).
Unlike Calendar, `if groups:` has no `else`: a 200 with zero records appends
neither a fragment nor a diagnostic line. -/
def groupsStep (b : Backend) : StepOut :=
  match b.groups with
  | some res =>
    if res.respOk && (res.status == 200) then
      match res.body with
      | some payload =>
        let groups := payload.data.getD []
        if groups.isEmpty then
          ⟨[.groups], [], [], none⟩
        else
          let okLine := "✅ Groups API: Found " ++ toString groups.length ++ " groups."
          match renderAll renderName groups with
          | .ok ns =>
            ⟨[.groups], ["Found in Groups: " ++ String.intercalate ", " ns],
             [okLine], none⟩
          | .error e => ⟨[.groups], [], [okLine], some e⟩
      | none => ⟨[.groups], [], [], some .jsonDecodeError⟩
    else ⟨[.groups], [], [], none⟩
  | none => ⟨[.groups], [], [], none⟩

/-- The whole body of `search_context` as an accumulated run state. -/
def runSearch (b : Backend) (query : String) : StepOut :=
  let clean_query := pyStrip query
  seqStep (probeStep b)
    (seqStep (peopleStep b clean_query)
      (seqStep (servicesStep b)
        (seqStep (calendarStep b) (groupsStep b))))

/-- The fixed no-data sentinel of app.py line 129. -/
def NO_DATA_SENTINEL : String :=
  "No specific data found in People, Services, Calendar, or Groups for this query."

/-- `search_context(query)` of app.py lines 38-131: returns the
(Context String, Diagnostic Trace) pair, or the uncaught Python exception. -/
def search_context (b : Backend) (query : String) : Except PyErr (String × String) :=
  let r := runSearch b query
  match r.err with
  | some e => .error e
  | none =>
    let final_output := String.intercalate "\n" r.frags
    let final_output := if final_output = "" then NO_DATA_SENTINEL else final_output
    .ok (final_output, String.intercalate "\n" r.logs)

/-! Outcome classification, following the spec's Backend Outcome taxonomy as
it applies to the code: a call slot is a `TransportFailure` when
`pco_api_call` returned `None`; `EmptyOk` when it returned a 200 response
with a decodable body and zero records; and so on. -/

/-- The retry precondition of app.py line 75:
`len(first_word) > 2 and first_word != clean_query`. -/
def retryCondition (clean : String) : Prop :=
  2 < (firstToken clean).length ∧ firstToken clean ≠ clean

/-- `TransportFailure`: `pco_api_call` caught an exception and returned `None`. -/
def transportFailure {α : Type} (r : Option (Response α)) : Prop :=
  r = none

/-- `EmptyOk`: a 200 response, decodable body, zero records. -/
def emptyOk (r : Option (Response ListPayload)) : Prop :=
  ∃ resp p, r = some resp ∧ resp.status = 200 ∧ resp.body = some p ∧ p.data.getD [] = []

/-- `Ok` with at least one record: a 200 response, decodable body, non-empty
record list. -/
def nonEmptyOk (r : Option (Response ListPayload)) : Prop :=
  ∃ resp p, r = some resp ∧ resp.status = 200 ∧ resp.body = some p ∧ p.data.getD [] ≠ []

/-- A 200 response with a decodable body (any record count). -/
def ok200 (r : Option (Response ListPayload)) : Prop :=
  ∃ resp p, r = some resp ∧ resp.status = 200 ∧ resp.body = some p

/-- The call slot, if answered at all, did not answer with status 200:
covers `TransportFailure`, `AuthDenied` (403) and `UnexpectedStatus`. -/
def not200 {α : Type} (r : Option (Response α)) : Prop :=
  ∀ resp, r = some resp → resp.status ≠ 200

/-- A list-endpoint slot that cannot make `search_context` raise: if it is a
200 response, its body decodes and every record has an `attributes` key. -/
def wellFormedList (r : Option (Response ListPayload)) : Prop :=
  ∀ resp, r = some resp → resp.status = 200 →
    ∃ p, resp.body = some p ∧ ∀ rec ∈ p.data.getD [], rec.attributes.isSome = true

/-- A probe slot that cannot make `search_context` raise: if it is a 200
response, its body decodes. -/
def wellFormedProbe (r : Option (Response ProbePayload)) : Prop :=
  ∀ resp, r = some resp → resp.status = 200 → resp.body.isSome = true

/-- Two successive `search_context` calls with the same query against the
same backend behavior (app.py keeps no state between them). -/
def searchTwice (b : Backend) (q : String) :
    Except PyErr (String × String) × Except PyErr (String × String) :=
  (search_context b q, search_context b q)

/-! Concrete backend behaviors used to exercise the model. -/

/-- A 200 response with a decodable body and an empty `data` list. -/
def emptyListResp : Response ListPayload := ⟨200, some ⟨some []⟩⟩

/-- Every call raises a transport exception. -/
def allNoneBackend : Backend := ⟨none, none, none, none, none, none⟩

/-- The probe fails in transport; every other call returns `EmptyOk`. -/
def allEmptyOkBackend : Backend :=
  ⟨none, some emptyListResp, some emptyListResp, some emptyListResp,
   some emptyListResp, some emptyListResp⟩

/-- The probe answers 200 with an undecodable JSON body. -/
def badJsonProbeBackend : Backend := ⟨some ⟨200, none⟩, none, none, none, none, none⟩

/-- The People primary call answers 403 (decodable body); everything else
fails in transport. -/
def people403Backend : Backend := ⟨none, some ⟨403, some ⟨some []⟩⟩, none, none, none, none⟩

/-- A complete people record. -/
def alexaRecord : Record := ⟨some ⟨some "Alexa", some "Member"⟩⟩

/-- People primary `EmptyOk`, the retry finds one record. -/
def retryHitBackend : Backend :=
  ⟨none, some emptyListResp, some ⟨200, some ⟨some [alexaRecord]⟩⟩, none, none, none⟩

/-- Only the services call answers, with `EmptyOk`. -/
def servicesEmptyBackend : Backend := ⟨none, none, none, some emptyListResp, none, none⟩

/-- Calendar and Groups both answer `EmptyOk`; everything else fails in
transport. -/
def calGroupsEmptyBackend : Backend :=
  ⟨none, none, none, none, some emptyListResp, some emptyListResp⟩

/-- A record with only a name. -/
def namedRecord (s : String) : Record := ⟨some ⟨some s, none⟩⟩

/-- All four search adapters find one record each. -/
def fullHitBackend : Backend :=
  ⟨none, some ⟨200, some ⟨some [alexaRecord]⟩⟩, none,
   some ⟨200, some ⟨some [namedRecord "Sunday Gathering"]⟩⟩,
   some ⟨200, some ⟨some [namedRecord "Picnic"]⟩⟩,
   some ⟨200, some ⟨some [namedRecord "Alpha Group"]⟩⟩⟩

/-- People and services answer 200 with one record each whose `attributes`
dictionary is present but has no `name` and no `status` field. -/
def noFieldsBackend : Backend :=
  ⟨none, some ⟨200, some ⟨some [⟨some ⟨none, none⟩⟩]⟩⟩, none,
   some ⟨200, some ⟨some [⟨some ⟨none, none⟩⟩]⟩⟩, none, none⟩

end PCO

namespace PCO

/-! Helper lemmas: shapes of each step under each backend outcome. -/

theorem seqStep_err_none (a b : StepOut) :
    (seqStep a b).err = none ↔ a.err = none ∧ b.err = none := by
  cases h : a.err <;> simp [seqStep, h]

theorem seqStep_of_err_none (a b : StepOut) (h : a.err = none) :
    seqStep a b = ⟨a.calls ++ b.calls, a.frags ++ b.frags, a.logs ++ b.logs, b.err⟩ := by
  unfold seqStep
  rw [h]

theorem renderAll_renderPerson_ok (l : List Record) (h : ∀ r ∈ l, r.attributes.isSome = true) :
    ∃ ns, renderAll renderPerson l = Except.ok ns := by
  induction l with
  | nil => exact ⟨[], rfl⟩
  | cons a t ih =>
    obtain ⟨attrs, ha⟩ := Option.isSome_iff_exists.mp (h a (by simp))
    obtain ⟨ns, hns⟩ := ih fun r hr => h r (by simp [hr])
    exact ⟨renderPersonTotal attrs :: ns, by simp [renderAll, renderPerson, ha, hns]⟩

theorem renderAll_renderName_ok (l : List Record) (h : ∀ r ∈ l, r.attributes.isSome = true) :
    ∃ ns, renderAll renderName l = Except.ok ns := by
  induction l with
  | nil => exact ⟨[], rfl⟩
  | cons a t ih =>
    obtain ⟨attrs, ha⟩ := Option.isSome_iff_exists.mp (h a (by simp))
    obtain ⟨ns, hns⟩ := ih fun r hr => h r (by simp [hr])
    exact ⟨attrs.name.getD "Unnamed" :: ns, by simp [renderAll, renderName, ha, hns]⟩

theorem renderAll_renderPerson_total (l : List Attrs) :
    renderAll renderPerson (l.map fun a => (⟨some a⟩ : Record)) =
      Except.ok (l.map renderPersonTotal) := by
  induction l with
  | nil => rfl
  | cons a t ih => simp [renderAll, renderPerson, ih]

theorem renderAll_renderName_total (l : List Attrs) :
    renderAll renderName (l.map fun a => (⟨some a⟩ : Record)) =
      Except.ok (l.map fun a => a.name.getD "Unnamed") := by
  induction l with
  | nil => rfl
  | cons a t ih => simp [renderAll, renderName, ih]

theorem probeStep_calls (b : Backend) : (probeStep b).calls = [ApiCall.probe] := by
  unfold probeStep
  rcases b.probe with _ | r
  · rfl
  · dsimp only
    split
    · split <;> rfl
    · rfl

theorem probeStep_frags (b : Backend) : (probeStep b).frags = [] := by
  unfold probeStep
  rcases b.probe with _ | r
  · rfl
  · dsimp only
    split
    · split <;> rfl
    · rfl

theorem probeStep_err_none (b : Backend) (h : wellFormedProbe b.probe) :
    (probeStep b).err = none := by
  rcases hp : b.probe with _ | res
  · simp [probeStep, hp]
  · rcases res with ⟨st, body⟩
    by_cases hs : st = 200
    · subst hs
      have hb := h ⟨200, body⟩ hp rfl
      simp only at hb
      obtain ⟨p, hb⟩ := Option.isSome_iff_exists.mp hb
      simp [probeStep, hp, Response.respOk, hb]
    · simp [probeStep, hp, Response.respOk, hs]

theorem probeStep_logs_length (b : Backend) (h : (probeStep b).err = none) :
    (probeStep b).logs.length = 1 := by
  rcases hp : b.probe with _ | res
  · simp [probeStep, hp]
  · rcases res with ⟨st, body⟩
    by_cases hs : st = 200
    · subst hs
      rcases body with _ | p
      · simp [probeStep, hp, Response.respOk] at h
      · simp [probeStep, hp, Response.respOk]
    · simp [probeStep, hp, Response.respOk, hs]

theorem peopleRetryStep_calls (b : Backend) (fw : String) :
    (peopleRetryStep b fw).calls = [ApiCall.peopleRetry] := by
  unfold peopleRetryStep
  rcases b.peopleRetry with _ | r
  · rfl
  · dsimp only
    split
    · split
      · split
        · rfl
        · split <;> rfl
      · rfl
    · rfl

theorem peopleRetryStep_none (b : Backend) (fw : String) (h : b.peopleRetry = none) :
    peopleRetryStep b fw = ⟨[ApiCall.peopleRetry], [], [], none⟩ := by
  simp [peopleRetryStep, h]

theorem peopleRetryStep_not200 (b : Backend) (fw : String) (res : Response ListPayload)
    (h : b.peopleRetry = some res) (hs : res.status ≠ 200) :
    peopleRetryStep b fw = ⟨[ApiCall.peopleRetry], [], [], none⟩ := by
  rcases res with ⟨st, body⟩
  simp only [Response.status] at hs
  simp [peopleRetryStep, h, hs]

theorem peopleRetryStep_undecodable (b : Backend) (fw : String)
    (h : b.peopleRetry = some ⟨200, none⟩) :
    peopleRetryStep b fw = ⟨[ApiCall.peopleRetry], [], [], some PyErr.jsonDecodeError⟩ := by
  simp [peopleRetryStep, h, Response.respOk]

theorem peopleRetryStep_empty (b : Backend) (fw : String) (p : ListPayload)
    (h : b.peopleRetry = some ⟨200, some p⟩) (hemp : p.data.getD [] = []) :
    peopleRetryStep b fw = ⟨[ApiCall.peopleRetry], [],
      ["❌ People API: Retry also found 0 records for '" ++ fw ++ "'."], none⟩ := by
  simp [peopleRetryStep, h, Response.respOk, hemp]

theorem peopleRetryStep_hit (b : Backend) (fw : String) (p : ListPayload) (names : List String)
    (h : b.peopleRetry = some ⟨200, some p⟩) (hne : ¬ p.data.getD [] = [])
    (hm : renderAll renderPerson (p.data.getD []) = Except.ok names) :
    peopleRetryStep b fw = ⟨[ApiCall.peopleRetry],
      ["No exact match, but found similar names: " ++ String.intercalate ", " names],
      ["✅ People API: Retry found " ++ toString (p.data.getD []).length ++
        " matches for '" ++ fw ++ "'"], none⟩ := by
  simp [peopleRetryStep, h, Response.respOk, hne, hm]

theorem peopleRetryStep_ok200_logs (b : Backend) (fw : String) (p : ListPayload)
    (h : b.peopleRetry = some ⟨200, some p⟩) :
    (peopleRetryStep b fw).logs.length = 1 := by
  by_cases hemp : p.data.getD [] = []
  · simp [peopleRetryStep_empty b fw p h hemp]
  · simp [peopleRetryStep, h, Response.respOk, hemp]
    split <;> simp

theorem peopleRetryStep_frags_empty (b : Backend) (fw : String)
    (h : ¬ nonEmptyOk b.peopleRetry) :
    (peopleRetryStep b fw).frags = [] := by
  rcases hr : b.peopleRetry with _ | res
  · simp [peopleRetryStep_none b fw hr]
  · rcases res with ⟨st, body⟩
    by_cases hs : st = 200
    · subst hs
      rcases body with _ | p
      · simp [peopleRetryStep_undecodable b fw hr]
      · by_cases hemp : p.data.getD [] = []
        · simp [peopleRetryStep_empty b fw p hr hemp]
        · exact absurd ⟨⟨200, some p⟩, p, hr, rfl, rfl, hemp⟩ h
    · simp [peopleRetryStep_not200 b fw ⟨st, body⟩ hr hs]

theorem peopleRetryStep_err_none (b : Backend) (fw : String)
    (h : wellFormedList b.peopleRetry) :
    (peopleRetryStep b fw).err = none := by
  rcases hr : b.peopleRetry with _ | res
  · simp [peopleRetryStep_none b fw hr]
  · rcases res with ⟨st, body⟩
    by_cases hs : st = 200
    · subst hs
      obtain ⟨p, hb, hrec⟩ := h ⟨200, body⟩ hr rfl
      simp only at hb
      subst hb
      by_cases hemp : p.data.getD [] = []
      · simp [peopleRetryStep_empty b fw p hr hemp]
      · obtain ⟨ns, hns⟩ := renderAll_renderPerson_ok _ hrec
        simp [peopleRetryStep_hit b fw p ns hr hemp hns]
    · simp [peopleRetryStep_not200 b fw ⟨st, body⟩ hr hs]

end PCO

namespace PCO

theorem retryCond_guard (clean : String) :
    ((firstToken clean).length > 2 && firstToken clean != clean) = true ↔ retryCondition clean := by
  simp [retryCondition, firstToken]

theorem peopleStep_none (b : Backend) (clean : String) (h : b.peoplePrimary = none) :
    peopleStep b clean = ⟨[ApiCall.peoplePrimary], [], [], none⟩ := by
  simp [peopleStep, h]

theorem peopleStep_not200 (b : Backend) (clean : String) (res : Response ListPayload)
    (h : b.peoplePrimary = some res) (hs : res.status ≠ 200) :
    peopleStep b clean = ⟨[ApiCall.peoplePrimary], [], [], none⟩ := by
  rcases res with ⟨st, body⟩
  simp only [Response.status] at hs
  by_cases h403 : st = 403
  · subst h403
    simp [peopleStep, h, Response.respOk]
  · simp [peopleStep, h, Response.respOk, hs, h403]

theorem peopleStep_undecodable (b : Backend) (clean : String)
    (h : b.peoplePrimary = some ⟨200, none⟩) :
    peopleStep b clean = ⟨[ApiCall.peoplePrimary], [], [], some PyErr.jsonDecodeError⟩ := by
  simp [peopleStep, h, Response.respOk]

theorem peopleStep_emptyOk_skip (b : Backend) (clean : String) (p : ListPayload)
    (h : b.peoplePrimary = some ⟨200, some p⟩)
    (hemp : p.data.getD [] = []) (hrc : ¬ retryCondition clean) :
    peopleStep b clean = ⟨[ApiCall.peoplePrimary], [],
      ["⚠️ People API: 0 results for '" ++ clean ++ "'. Trying partial search...",
       "❌ People API: Partial search skipped (query too short)."], none⟩ := by
  simp only [retryCondition] at hrc
  simp [peopleStep, h, Response.respOk, hemp]
  intro h1 h2
  exact absurd ⟨h1, h2⟩ hrc

theorem peopleStep_emptyOk_retry (b : Backend) (clean : String) (p : ListPayload)
    (h : b.peoplePrimary = some ⟨200, some p⟩)
    (hemp : p.data.getD [] = []) (hrc : retryCondition clean) :
    peopleStep b clean = seqStep
      ⟨[ApiCall.peoplePrimary], [],
       ["⚠️ People API: 0 results for '" ++ clean ++ "'. Trying partial search..."], none⟩
      (peopleRetryStep b (firstToken clean)) := by
  simp only [retryCondition] at hrc
  simp [peopleStep, h, Response.respOk, hemp]
  intro h1
  exact absurd (h1 hrc.1) hrc.2

theorem peopleStep_rendered (b : Backend) (clean : String) (p : ListPayload) (names : List String)
    (h : b.peoplePrimary = some ⟨200, some p⟩) (hne : ¬ p.data.getD [] = [])
    (hm : renderAll renderPerson (p.data.getD []) = Except.ok names) :
    peopleStep b clean = ⟨[ApiCall.peoplePrimary],
      ["Found in People Directory: " ++ String.intercalate ", " names],
      ["✅ People API: Found " ++ toString (p.data.getD []).length ++
        " matches for '" ++ clean ++ "'"], none⟩ := by
  simp [peopleStep, h, Response.respOk, hne, hm]

theorem peopleStep_nonEmpty_shape (b : Backend) (clean : String) (p : ListPayload)
    (h : b.peoplePrimary = some ⟨200, some p⟩) (hne : ¬ p.data.getD [] = []) :
    (peopleStep b clean).calls = [ApiCall.peoplePrimary] ∧
    (peopleStep b clean).logs = ["✅ People API: Found " ++ toString (p.data.getD []).length ++
      " matches for '" ++ clean ++ "'"] := by
  simp [peopleStep, h, Response.respOk, hne]
  split <;> simp

theorem servicesStep_none (b : Backend) (h : b.services = none) :
    servicesStep b = ⟨[ApiCall.services], [], [], none⟩ := by
  simp [servicesStep, h]

theorem servicesStep_not200 (b : Backend) (res : Response ListPayload)
    (h : b.services = some res) (hs : res.status ≠ 200) :
    servicesStep b = ⟨[ApiCall.services], [], [], none⟩ := by
  rcases res with ⟨st, body⟩
  simp only [Response.status] at hs
  by_cases h403 : st = 403
  · subst h403
    simp [servicesStep, h, Response.respOk]
  · simp [servicesStep, h, Response.respOk, hs, h403]

theorem servicesStep_ok200_logs (b : Backend) (p : ListPayload)
    (h : b.services = some ⟨200, some p⟩) :
    (servicesStep b).logs = ["✅ Services API: Success. Found " ++
      toString (p.data.getD []).length ++ " Gathering Types."] := by
  simp [servicesStep, h, Response.respOk]
  split <;> simp

theorem servicesStep_rendered (b : Backend) (p : ListPayload) (types : List String)
    (h : b.services = some ⟨200, some p⟩)
    (hm : renderAll renderName ((p.data.getD []).take 8) = Except.ok types) :
    servicesStep b = ⟨[ApiCall.services],
      ["Available Gathering Types: " ++ String.intercalate ", " types],
      ["✅ Services API: Success. Found " ++ toString (p.data.getD []).length ++
        " Gathering Types."], none⟩ := by
  simp [servicesStep, h, Response.respOk, hm]

theorem calendarStep_none (b : Backend) (h : b.calendar = none) :
    calendarStep b = ⟨[ApiCall.calendar], [], [], none⟩ := by
  simp [calendarStep, h]

theorem calendarStep_not200 (b : Backend) (res : Response ListPayload)
    (h : b.calendar = some res) (hs : res.status ≠ 200) :
    calendarStep b = ⟨[ApiCall.calendar], [], [], none⟩ := by
  rcases res with ⟨st, body⟩
  simp only [Response.status] at hs
  simp [calendarStep, h, hs]

theorem calendarStep_emptyOk (b : Backend) (p : ListPayload)
    (h : b.calendar = some ⟨200, some p⟩) (hemp : p.data.getD [] = []) :
    calendarStep b = ⟨[ApiCall.calendar], [], ["✅ Calendar API: 0 events found."], none⟩ := by
  simp [calendarStep, h, Response.respOk, hemp]

theorem calendarStep_ok200_logs (b : Backend) (p : ListPayload)
    (h : b.calendar = some ⟨200, some p⟩) :
    (calendarStep b).logs.length = 1 := by
  by_cases hemp : p.data.getD [] = []
  · simp [calendarStep_emptyOk b p h hemp]
  · simp [calendarStep, h, Response.respOk, hemp]
    split <;> simp

theorem calendarStep_rendered (b : Backend) (p : ListPayload) (ns : List String)
    (h : b.calendar = some ⟨200, some p⟩) (hne : ¬ p.data.getD [] = [])
    (hm : renderAll renderName (p.data.getD []) = Except.ok ns) :
    calendarStep b = ⟨[ApiCall.calendar],
      ["Found in Calendar: " ++ String.intercalate ", " ns],
      ["✅ Calendar API: Found " ++ toString (p.data.getD []).length ++ " events."], none⟩ := by
  simp [calendarStep, h, Response.respOk, hne, hm]

theorem groupsStep_none (b : Backend) (h : b.groups = none) :
    groupsStep b = ⟨[ApiCall.groups], [], [], none⟩ := by
  simp [groupsStep, h]

theorem groupsStep_not200 (b : Backend) (res : Response ListPayload)
    (h : b.groups = some res) (hs : res.status ≠ 200) :
    groupsStep b = ⟨[ApiCall.groups], [], [], none⟩ := by
  rcases res with ⟨st, body⟩
  simp only [Response.status] at hs
  simp [groupsStep, h, hs]

theorem groupsStep_emptyOk (b : Backend) (p : ListPayload)
    (h : b.groups = some ⟨200, some p⟩) (hemp : p.data.getD [] = []) :
    groupsStep b = ⟨[ApiCall.groups], [], [], none⟩ := by
  simp [groupsStep, h, Response.respOk, hemp]

theorem groupsStep_rendered (b : Backend) (p : ListPayload) (ns : List String)
    (h : b.groups = some ⟨200, some p⟩) (hne : ¬ p.data.getD [] = [])
    (hm : renderAll renderName (p.data.getD []) = Except.ok ns) :
    groupsStep b = ⟨[ApiCall.groups],
      ["Found in Groups: " ++ String.intercalate ", " ns],
      ["✅ Groups API: Found " ++ toString (p.data.getD []).length ++ " groups."], none⟩ := by
  simp [groupsStep, h, Response.respOk, hne, hm]

theorem groupsStep_nonEmpty_logs (b : Backend) (p : ListPayload)
    (h : b.groups = some ⟨200, some p⟩) (hne : ¬ p.data.getD [] = []) :
    (groupsStep b).logs.length = 1 := by
  simp [groupsStep, h, Response.respOk, hne]
  split <;> simp

end PCO

namespace PCO

theorem peopleStep_err_none (b : Backend) (clean : String)
    (hp : wellFormedList b.peoplePrimary) (hr : wellFormedList b.peopleRetry) :
    (peopleStep b clean).err = none := by
  rcases hq : b.peoplePrimary with _ | res
  · simp [peopleStep_none b clean hq]
  · rcases res with ⟨st, body⟩
    by_cases hs : st = 200
    · subst hs
      obtain ⟨p, hb, hrec⟩ := hp ⟨200, body⟩ hq rfl
      simp only at hb
      subst hb
      by_cases hemp : p.data.getD [] = []
      · by_cases hrc : retryCondition clean
        · rw [peopleStep_emptyOk_retry b clean p hq hemp hrc]
          rw [seqStep_of_err_none _ _ rfl]
          exact peopleRetryStep_err_none b (firstToken clean) hr
        · simp [peopleStep_emptyOk_skip b clean p hq hemp hrc]
      · obtain ⟨ns, hns⟩ := renderAll_renderPerson_ok _ hrec
        simp [peopleStep_rendered b clean p ns hq hemp hns]
    · simp [peopleStep_not200 b clean ⟨st, body⟩ hq hs]

theorem servicesStep_err_none (b : Backend) (h : wellFormedList b.services) :
    (servicesStep b).err = none := by
  rcases hq : b.services with _ | res
  · simp [servicesStep_none b hq]
  · rcases res with ⟨st, body⟩
    by_cases hs : st = 200
    · subst hs
      obtain ⟨p, hb, hrec⟩ := h ⟨200, body⟩ hq rfl
      simp only at hb
      subst hb
      obtain ⟨ns, hns⟩ := renderAll_renderName_ok ((p.data.getD []).take 8)
        fun r hrmem => hrec r (List.take_subset 8 _ hrmem)
      simp [servicesStep_rendered b p ns hq hns]
    · simp [servicesStep_not200 b ⟨st, body⟩ hq hs]

theorem calendarStep_err_none (b : Backend) (h : wellFormedList b.calendar) :
    (calendarStep b).err = none := by
  rcases hq : b.calendar with _ | res
  · simp [calendarStep_none b hq]
  · rcases res with ⟨st, body⟩
    by_cases hs : st = 200
    · subst hs
      obtain ⟨p, hb, hrec⟩ := h ⟨200, body⟩ hq rfl
      simp only at hb
      subst hb
      by_cases hemp : p.data.getD [] = []
      · simp [calendarStep_emptyOk b p hq hemp]
      · obtain ⟨ns, hns⟩ := renderAll_renderName_ok _ hrec
        simp [calendarStep_rendered b p ns hq hemp hns]
    · simp [calendarStep_not200 b ⟨st, body⟩ hq hs]

theorem groupsStep_err_none (b : Backend) (h : wellFormedList b.groups) :
    (groupsStep b).err = none := by
  rcases hq : b.groups with _ | res
  · simp [groupsStep_none b hq]
  · rcases res with ⟨st, body⟩
    by_cases hs : st = 200
    · subst hs
      obtain ⟨p, hb, hrec⟩ := h ⟨200, body⟩ hq rfl
      simp only at hb
      subst hb
      by_cases hemp : p.data.getD [] = []
      · simp [groupsStep_emptyOk b p hq hemp]
      · obtain ⟨ns, hns⟩ := renderAll_renderName_ok _ hrec
        simp [groupsStep_rendered b p ns hq hemp hns]
    · simp [groupsStep_not200 b ⟨st, body⟩ hq hs]

theorem runSearch_eq_steps (b : Backend) (q : String) :
    runSearch b q = seqStep (probeStep b)
      (seqStep (peopleStep b (pyStrip q))
        (seqStep (servicesStep b)
          (seqStep (calendarStep b) (groupsStep b)))) := rfl

theorem runSearch_parts (b : Backend) (q : String)
    (h1 : (probeStep b).err = none) (h2 : (peopleStep b (pyStrip q)).err = none)
    (h3 : (servicesStep b).err = none) (h4 : (calendarStep b).err = none) :
    runSearch b q = ⟨
      (probeStep b).calls ++ ((peopleStep b (pyStrip q)).calls ++ ((servicesStep b).calls ++
        ((calendarStep b).calls ++ (groupsStep b).calls))),
      (probeStep b).frags ++ ((peopleStep b (pyStrip q)).frags ++ ((servicesStep b).frags ++
        ((calendarStep b).frags ++ (groupsStep b).frags))),
      (probeStep b).logs ++ ((peopleStep b (pyStrip q)).logs ++ ((servicesStep b).logs ++
        ((calendarStep b).logs ++ (groupsStep b).logs))),
      (groupsStep b).err⟩ := by
  rw [runSearch_eq_steps,
    seqStep_of_err_none _ _ h4,
    seqStep_of_err_none _ _ h3]
  rw [seqStep_of_err_none _ _ h2]
  rw [seqStep_of_err_none _ _ h1]

theorem search_context_of_err (b : Backend) (q : String) (e : PyErr)
    (h : (runSearch b q).err = some e) :
    search_context b q = Except.error e := by
  simp [search_context, h]

theorem search_context_of_ok (b : Backend) (q : String)
    (h : (runSearch b q).err = none) :
    search_context b q = Except.ok
      (if String.intercalate "\n" (runSearch b q).frags = "" then NO_DATA_SENTINEL
       else String.intercalate "\n" (runSearch b q).frags,
       String.intercalate "\n" (runSearch b q).logs) := by
  simp [search_context, h]

end PCO

namespace PCO

theorem mem_seqStep_calls (c : ApiCall) (a b : StepOut) :
    c ∈ (seqStep a b).calls ↔ c ∈ a.calls ∨ (a.err = none ∧ c ∈ b.calls) := by
  cases h : a.err <;> simp [seqStep, h]

theorem servicesStep_calls (b : Backend) : (servicesStep b).calls = [ApiCall.services] := by
  unfold servicesStep
  rcases b.services with _ | r
  · rfl
  · dsimp only
    split
    · split
      · split <;> rfl
      · rfl
    · split <;> rfl

theorem calendarStep_calls (b : Backend) : (calendarStep b).calls = [ApiCall.calendar] := by
  unfold calendarStep
  rcases b.calendar with _ | r
  · rfl
  · dsimp only
    split
    · split
      · split
        · rfl
        · split <;> rfl
      · rfl
    · rfl

theorem groupsStep_calls (b : Backend) : (groupsStep b).calls = [ApiCall.groups] := by
  unfold groupsStep
  rcases b.groups with _ | r
  · rfl
  · dsimp only
    split
    · split
      · split
        · rfl
        · split <;> rfl
      · rfl
    · rfl

theorem peopleStep_primary_mem (b : Backend) (clean : String) :
    ApiCall.peoplePrimary ∈ (peopleStep b clean).calls := by
  rcases hq : b.peoplePrimary with _ | res
  · simp [peopleStep_none b clean hq]
  · rcases res with ⟨st, body⟩
    by_cases hs : st = 200
    · subst hs
      rcases body with _ | p
      · simp [peopleStep_undecodable b clean hq]
      · by_cases hemp : p.data.getD [] = []
        · by_cases hrc : retryCondition clean
          · rw [peopleStep_emptyOk_retry b clean p hq hemp hrc,
              seqStep_of_err_none _ _ rfl]
            simp
          · simp [peopleStep_emptyOk_skip b clean p hq hemp hrc]
        · simp [(peopleStep_nonEmpty_shape b clean p hq hemp).1]
    · simp [peopleStep_not200 b clean ⟨st, body⟩ hq hs]

theorem peopleStep_retry_mem (b : Backend) (clean : String) :
    ApiCall.peopleRetry ∈ (peopleStep b clean).calls ↔
      emptyOk b.peoplePrimary ∧ retryCondition clean := by
  rcases hq : b.peoplePrimary with _ | res
  · simp [peopleStep_none b clean hq, emptyOk, hq]
  · rcases res with ⟨st, body⟩
    by_cases hs : st = 200
    · subst hs
      rcases body with _ | p
      · simp [peopleStep_undecodable b clean hq, emptyOk, hq]
      · by_cases hemp : p.data.getD [] = []
        · by_cases hrc : retryCondition clean
          · rw [peopleStep_emptyOk_retry b clean p hq hemp hrc,
              seqStep_of_err_none _ _ rfl]
            exact iff_of_true (by simp [peopleRetryStep_calls])
              ⟨⟨⟨200, some p⟩, p, rfl, rfl, rfl, hemp⟩, hrc⟩
          · rw [peopleStep_emptyOk_skip b clean p hq hemp hrc]
            simp [hrc]
        · simp [(peopleStep_nonEmpty_shape b clean p hq hemp).1, emptyOk, hq, hemp]
    · simp [peopleStep_not200 b clean ⟨st, body⟩ hq hs, emptyOk, hq, hs]

theorem peopleStep_quiet (b : Backend) (clean : String)
    (h1 : emptyOk b.peoplePrimary ∨ b.peoplePrimary = none)
    (h2 : emptyOk b.peopleRetry ∨ b.peopleRetry = none) :
    (peopleStep b clean).frags = [] ∧ (peopleStep b clean).err = none := by
  rcases h1 with h1 | h1
  · obtain ⟨⟨st, body⟩, p, hq, hs, hb, hd⟩ := h1
    simp only [Response.status, Response.body] at hs hb
    subst hs
    subst hb
    by_cases hrc : retryCondition clean
    · rw [peopleStep_emptyOk_retry b clean p hq hd hrc,
        seqStep_of_err_none _ _ rfl]
      rcases h2 with h2 | h2
      · obtain ⟨⟨st2, body2⟩, p2, hq2, hs2, hb2, hd2⟩ := h2
        simp only [Response.status, Response.body] at hs2 hb2
        subst hs2
        subst hb2
        simp [peopleRetryStep_empty b (firstToken clean) p2 hq2 hd2]
      · simp [peopleRetryStep_none b (firstToken clean) h2]
    · simp [peopleStep_emptyOk_skip b clean p hq hd hrc]
  · simp [peopleStep_none b clean h1]

end PCO

namespace PCO

/-! The claims. -/

/-- C1, counterexample: on a backend whose root probe answers HTTP 200 with
an undecodable JSON body, `search_context` raises the JSON decode error to
its caller instead of returning a pair of strings (the body is parsed by
`res.json()` outside the `try/except` of `pco_api_call`), and it is not
treated as a `TransportFailure`. -/
theorem c1_counterexample :
    search_context badJsonProbeBackend "Alice" = Except.error PyErr.jsonDecodeError ∧
    ¬ ∃ ctx dbg, search_context badJsonProbeBackend "Alice" = Except.ok (ctx, dbg) := by
  constructor
  · rfl
  · rintro ⟨ctx, dbg, hcd⟩
    rw [show search_context badJsonProbeBackend "Alice" = Except.error PyErr.jsonDecodeError
      from rfl] at hcd
    exact Except.noConfusion hcd

/-- C1, amended: `search_context` returns a well-formed pair of strings and
raises nothing, provided every 200 response it reads carries a decodable
JSON body whose records all have an `attributes` key; an undecodable body on
a 200 response instead raises a JSON decode error to the caller. -/
theorem c1_amended (b : Backend) (q : String)
    (h0 : wellFormedProbe b.probe)
    (h1 : wellFormedList b.peoplePrimary) (h2 : wellFormedList b.peopleRetry)
    (h3 : wellFormedList b.services) (h4 : wellFormedList b.calendar)
    (h5 : wellFormedList b.groups) :
    ∃ ctx dbg, search_context b q = Except.ok (ctx, dbg) := by
  have herr : (runSearch b q).err = none := by
    rw [runSearch_eq_steps]
    simp only [seqStep_err_none]
    exact ⟨probeStep_err_none b h0, peopleStep_err_none b (pyStrip q) h1 h2,
      servicesStep_err_none b h3, calendarStep_err_none b h4, groupsStep_err_none b h5⟩
  exact ⟨_, _, search_context_of_ok b q herr⟩

/-- C1, witness: the amended theorem applied to the all-transport-failure
backend. -/
theorem c1_witness :
    ∃ ctx dbg, search_context allNoneBackend "Alice" = Except.ok (ctx, dbg) :=
  c1_amended allNoneBackend "Alice"
    (fun _ hr => nomatch hr) (fun _ hr => nomatch hr) (fun _ hr => nomatch hr)
    (fun _ hr => nomatch hr) (fun _ hr => nomatch hr) (fun _ hr => nomatch hr)

/-- C5: the People `AuthDenied` claim fails because of a code bug.  On a
backend whose People primary call answers HTTP 403, the
`elif res and res.status_code == 403` branch of app.py can never run — a
`requests.Response` with status 403 is falsy — so no "ERROR" fragment is
emitted: here the Context String is the no-data sentinel and the run emits
no fragment at all. -/
theorem c5_code_bug_eval :
    search_context people403Backend "Alice" =
      Except.ok (NO_DATA_SENTINEL, "❌ Org Check: Failed to connect to PCO Root.") ∧
    (runSearch people403Backend "Alice").frags = [] := by
  exact ⟨rfl, rfl⟩

/-- C10: `search_context` is deterministic — two successive calls with the
same query against identical backend responses return the same pair, and
the result depends on the query only through the Cleaned Query. -/
theorem c10_deterministic (b : Backend) (q q' : String) (h : pyStrip q = pyStrip q') :
    (searchTwice b q).1 = (searchTwice b q).2 ∧ search_context b q = search_context b q' := by
  refine ⟨rfl, ?_⟩
  unfold search_context runSearch
  rw [h]

/-- C10, witness: two queries differing only in surrounding whitespace. -/
theorem c10_witness :
    (searchTwice allNoneBackend " Alice").1 = (searchTwice allNoneBackend " Alice").2 ∧
    search_context allNoneBackend " Alice" = search_context allNoneBackend "Alice " :=
  c10_deterministic allNoneBackend " Alice" "Alice " (by decide)

end PCO

namespace PCO

/-- C2, counterexample: on a backend where every adapter call is `EmptyOk`
(and the probe a `TransportFailure`), the Context String is the bare
gathering-types header, not the no-data sentinel: the Services block of
app.py appends its fragment on every 200 response, even with zero records. -/
theorem c2_counterexample :
    emptyOk allEmptyOkBackend.peoplePrimary ∧ emptyOk allEmptyOkBackend.peopleRetry ∧
    emptyOk allEmptyOkBackend.services ∧ emptyOk allEmptyOkBackend.calendar ∧
    emptyOk allEmptyOkBackend.groups ∧ transportFailure allEmptyOkBackend.probe ∧
    (search_context allEmptyOkBackend "Alex Miller").map Prod.fst =
      Except.ok "Available Gathering Types: " ∧
    "Available Gathering Types: " ≠ NO_DATA_SENTINEL := by
  have he : emptyOk (some emptyListResp) := ⟨emptyListResp, ⟨some []⟩, rfl, rfl, rfl, rfl⟩
  exact ⟨he, he, he, he, he, rfl, rfl, by decide⟩

/-- C2, amended: if every adapter call returns `EmptyOk` or
`TransportFailure`, the Context String equals the no-data sentinel when the
Gatherings (services) call is a `TransportFailure`, and equals the bare
header "Available Gathering Types: " when the Gatherings call is `EmptyOk`
(the code appends that fragment on every 200 response). -/
theorem c2_amended (b : Backend) (q : String)
    (h0 : (∃ resp p, b.probe = some resp ∧ resp.status = 200 ∧ resp.body = some p) ∨
      b.probe = none)
    (h1 : emptyOk b.peoplePrimary ∨ b.peoplePrimary = none)
    (h2 : emptyOk b.peopleRetry ∨ b.peopleRetry = none)
    (_h3 : emptyOk b.services ∨ b.services = none)
    (h4 : emptyOk b.calendar ∨ b.calendar = none)
    (h5 : emptyOk b.groups ∨ b.groups = none) :
    (b.services = none →
      (search_context b q).map Prod.fst = Except.ok NO_DATA_SENTINEL) ∧
    (emptyOk b.services →
      (search_context b q).map Prod.fst = Except.ok "Available Gathering Types: ") := by
  have hprobe : (probeStep b).err = none := by
    apply probeStep_err_none
    rcases h0 with ⟨resp, p, hr, hs, hb⟩ | h0
    · intro r hr2 _
      rw [hr] at hr2
      cases hr2
      simp [hb]
    · intro r hr2 _
      rw [h0] at hr2
      exact Option.noConfusion hr2
  have hpeople := peopleStep_quiet b (pyStrip q) h1 h2
  have hcal : (calendarStep b).frags = [] ∧ (calendarStep b).err = none := by
    rcases h4 with h4 | h4
    · obtain ⟨⟨st, body⟩, p, hq, hs, hb, hd⟩ := h4
      simp only [Response.status, Response.body] at hs hb
      subst hs
      subst hb
      simp [calendarStep_emptyOk b p hq hd]
    · simp [calendarStep_none b h4]
  have hgr : (groupsStep b).frags = [] ∧ (groupsStep b).err = none := by
    rcases h5 with h5 | h5
    · obtain ⟨⟨st, body⟩, p, hq, hs, hb, hd⟩ := h5
      simp only [Response.status, Response.body] at hs hb
      subst hs
      subst hb
      simp [groupsStep_emptyOk b p hq hd]
    · simp [groupsStep_none b h5]
  constructor
  · intro hsnone
    have hsv := servicesStep_none b hsnone
    have herr : (runSearch b q).err = none := by
      rw [runSearch_eq_steps]
      simp [seqStep_err_none, hprobe, hpeople.2, hsv, hcal.2, hgr.2]
    have hparts := runSearch_parts b q hprobe hpeople.2 (by simp [hsv]) hcal.2
    have hfr : (runSearch b q).frags = [] := by
      rw [hparts]
      simp [probeStep_frags, hpeople.1, hsv, hcal.1, hgr.1]
    rw [search_context_of_ok b q herr, hfr]
    rfl
  · intro hse
    obtain ⟨⟨st, body⟩, p, hq, hs, hb, hd⟩ := hse
    simp only [Response.status, Response.body] at hs hb
    subst hs
    subst hb
    have hsv := servicesStep_rendered b p [] hq (by simp [hd, renderAll])
    have herr : (runSearch b q).err = none := by
      rw [runSearch_eq_steps]
      simp [seqStep_err_none, hprobe, hpeople.2, hsv, hcal.2, hgr.2]
    have hparts := runSearch_parts b q hprobe hpeople.2 (by simp [hsv]) hcal.2
    have hfr : (runSearch b q).frags = ["Available Gathering Types: "] := by
      rw [hparts]
      simp only [probeStep_frags, hpeople.1, hsv, hcal.1, hgr.1]
      rfl
    rw [search_context_of_ok b q herr, hfr]
    rfl

/-- C2, witness: the amended theorem at the all-`EmptyOk` backend and at the
same backend with the services call failing in transport. -/
theorem c2_witness :
    (search_context allEmptyOkBackend "Alex Miller").map Prod.fst =
      Except.ok "Available Gathering Types: " ∧
    (search_context ⟨none, some emptyListResp, some emptyListResp, none,
        some emptyListResp, some emptyListResp⟩ "Alex Miller").map Prod.fst =
      Except.ok NO_DATA_SENTINEL := by
  have he : emptyOk (some emptyListResp) := ⟨emptyListResp, ⟨some []⟩, rfl, rfl, rfl, rfl⟩
  constructor
  · exact (c2_amended allEmptyOkBackend "Alex Miller" (Or.inr rfl) (Or.inl he) (Or.inl he)
      (Or.inl he) (Or.inl he) (Or.inl he)).2 he
  · exact (c2_amended ⟨none, some emptyListResp, some emptyListResp, none,
      some emptyListResp, some emptyListResp⟩ "Alex Miller" (Or.inr rfl) (Or.inl he)
      (Or.inl he) (Or.inr rfl) (Or.inl he) (Or.inl he)).1 rfl

end PCO

namespace PCO

/-- C3, counterexample: on a backend where every call raises a transport
exception, five backend calls are attempted but the Diagnostic Trace has
only the probe line — the claimed one-status-line-per-attempted-call
property fails for `TransportFailure` outcomes. -/
theorem c3_counterexample :
    (runSearch allNoneBackend "Alice").calls =
      [ApiCall.probe, ApiCall.peoplePrimary, ApiCall.services,
       ApiCall.calendar, ApiCall.groups] ∧
    (runSearch allNoneBackend "Alice").logs =
      ["❌ Org Check: Failed to connect to PCO Root."] :=
  ⟨rfl, rfl⟩

/-- C3, amended: in a run that raises no exception, the Diagnostic Trace is
the concatenation of the per-step lines; the probe always contributes
exactly one line, but an adapter call contributes lines only on status 200:
People contributes one line on a non-empty primary, two when the primary is
empty and the retry is skipped or the retry call itself answers 200, and
only one when the retry call fails (transport or non-200, which add no
line); Services and Calendar contribute one line per 200 response; Groups
contributes a line only on a 200 response with a non-empty record list;
`TransportFailure`, 403 and any other status contribute no line. -/
theorem c3_amended (b : Backend) (q : String) (h : (runSearch b q).err = none) :
    ((runSearch b q).logs = (probeStep b).logs ++ ((peopleStep b (pyStrip q)).logs ++
      ((servicesStep b).logs ++ ((calendarStep b).logs ++ (groupsStep b).logs))) ∧
     (probeStep b).logs.length = 1) ∧
    ((not200 b.peoplePrimary → (peopleStep b (pyStrip q)).logs = []) ∧
     (nonEmptyOk b.peoplePrimary → (peopleStep b (pyStrip q)).logs.length = 1) ∧
     (emptyOk b.peoplePrimary → ¬ retryCondition (pyStrip q) →
        (peopleStep b (pyStrip q)).logs.length = 2) ∧
     (emptyOk b.peoplePrimary → retryCondition (pyStrip q) → not200 b.peopleRetry →
        (peopleStep b (pyStrip q)).logs.length = 1) ∧
     (emptyOk b.peoplePrimary → retryCondition (pyStrip q) → ok200 b.peopleRetry →
        (peopleStep b (pyStrip q)).logs.length = 2)) ∧
    ((not200 b.services → (servicesStep b).logs = []) ∧
     (ok200 b.services → (servicesStep b).logs.length = 1)) ∧
    ((not200 b.calendar → (calendarStep b).logs = []) ∧
     (ok200 b.calendar → (calendarStep b).logs.length = 1)) ∧
    ((not200 b.groups → (groupsStep b).logs = []) ∧
     (emptyOk b.groups → (groupsStep b).logs = []) ∧
     (nonEmptyOk b.groups → (groupsStep b).logs.length = 1)) := by
  rw [runSearch_eq_steps] at h
  simp only [seqStep_err_none] at h
  obtain ⟨e1, e2, e3, e4, e5⟩ := h
  refine ⟨⟨?_, probeStep_logs_length b e1⟩, ⟨?_, ?_, ?_, ?_, ?_⟩, ⟨?_, ?_⟩, ⟨?_, ?_⟩,
    ⟨?_, ?_, ?_⟩⟩
  · rw [runSearch_parts b q e1 e2 e3 e4]
  · intro hn
    rcases hq : b.peoplePrimary with _ | res
    · simp [peopleStep_none b (pyStrip q) hq]
    · simp [peopleStep_not200 b (pyStrip q) res hq (hn res hq)]
  · rintro ⟨⟨st, body⟩, p, hq, hs, hb, hd⟩
    simp only [Response.status, Response.body] at hs hb
    subst hs
    subst hb
    simp [(peopleStep_nonEmpty_shape b (pyStrip q) p hq hd).2]
  · rintro ⟨⟨st, body⟩, p, hq, hs, hb, hd⟩ hrc
    simp only [Response.status, Response.body] at hs hb
    subst hs
    subst hb
    simp [peopleStep_emptyOk_skip b (pyStrip q) p hq hd hrc]
  · rintro ⟨⟨st, body⟩, p, hq, hs, hb, hd⟩ hrc hn
    simp only [Response.status, Response.body] at hs hb
    subst hs
    subst hb
    rw [peopleStep_emptyOk_retry b (pyStrip q) p hq hd hrc,
      seqStep_of_err_none _ _ rfl]
    rcases hr : b.peopleRetry with _ | res2
    · simp [peopleRetryStep_none b (firstToken (pyStrip q)) hr]
    · simp [peopleRetryStep_not200 b (firstToken (pyStrip q)) res2 hr (hn res2 hr)]
  · rintro ⟨⟨st, body⟩, p, hq, hs, hb, hd⟩ hrc ⟨⟨st2, body2⟩, p2, hr, hs2, hb2⟩
    simp only [Response.status, Response.body] at hs hb hs2 hb2
    subst hs
    subst hb
    subst hs2
    subst hb2
    rw [peopleStep_emptyOk_retry b (pyStrip q) p hq hd hrc,
      seqStep_of_err_none _ _ rfl]
    simp [peopleRetryStep_ok200_logs b (firstToken (pyStrip q)) p2 hr]
  · intro hn
    rcases hq : b.services with _ | res
    · simp [servicesStep_none b hq]
    · simp [servicesStep_not200 b res hq (hn res hq)]
  · rintro ⟨⟨st, body⟩, p, hq, hs, hb⟩
    simp only [Response.status, Response.body] at hs hb
    subst hs
    subst hb
    simp [servicesStep_ok200_logs b p hq]
  · intro hn
    rcases hq : b.calendar with _ | res
    · simp [calendarStep_none b hq]
    · simp [calendarStep_not200 b res hq (hn res hq)]
  · rintro ⟨⟨st, body⟩, p, hq, hs, hb⟩
    simp only [Response.status, Response.body] at hs hb
    subst hs
    subst hb
    exact calendarStep_ok200_logs b p hq
  · intro hn
    rcases hq : b.groups with _ | res
    · simp [groupsStep_none b hq]
    · simp [groupsStep_not200 b res hq (hn res hq)]
  · rintro ⟨⟨st, body⟩, p, hq, hs, hb, hd⟩
    simp only [Response.status, Response.body] at hs hb
    subst hs
    subst hb
    simp [groupsStep_emptyOk b p hq hd]
  · rintro ⟨⟨st, body⟩, p, hq, hs, hb, hd⟩
    simp only [Response.status, Response.body] at hs hb
    subst hs
    subst hb
    exact groupsStep_nonEmpty_logs b p hq hd

/-- C3, witness: the amended theorem at the all-`EmptyOk` backend with the
short query "Al" (retry skipped): the trace decomposes as stated and the
People step contributes exactly two lines. -/
theorem c3_witness :
    (runSearch allEmptyOkBackend "Al").logs = (probeStep allEmptyOkBackend).logs ++
      ((peopleStep allEmptyOkBackend (pyStrip "Al")).logs ++
       ((servicesStep allEmptyOkBackend).logs ++ ((calendarStep allEmptyOkBackend).logs ++
        (groupsStep allEmptyOkBackend).logs))) ∧
    (peopleStep allEmptyOkBackend (pyStrip "Al")).logs.length = 2 := by
  have h := c3_amended allEmptyOkBackend "Al" rfl
  exact ⟨h.1.1, h.2.1.2.2.1 ⟨emptyListResp, ⟨some []⟩, rfl, rfl, rfl, rfl⟩ (fun hc => absurd hc.1 (by decide))⟩

end PCO

namespace PCO

/-- C4: the People retry call is issued iff the primary People call was
issued and returned `EmptyOk` and the First Token has length > 2 and
differs from the Cleaned Query; and when the issued retry returns a
non-empty, well-formed result, the emitted fragment is the
"No exact match, but found similar names" line, not an exact-match label. -/
theorem c4_retry_iff (b : Backend) (q : String) :
    (ApiCall.peopleRetry ∈ (runSearch b q).calls ↔
      ApiCall.peoplePrimary ∈ (runSearch b q).calls ∧ emptyOk b.peoplePrimary ∧
      retryCondition (pyStrip q)) ∧
    (∀ p names, b.peopleRetry = some ⟨200, some p⟩ → ¬ p.data.getD [] = [] →
      renderAll renderPerson (p.data.getD []) = Except.ok names →
      emptyOk b.peoplePrimary → retryCondition (pyStrip q) →
      (peopleStep b (pyStrip q)).frags =
        ["No exact match, but found similar names: " ++ String.intercalate ", " names]) := by
  have hchain : ∀ c : ApiCall, c ∈ (runSearch b q).calls ↔
      c ∈ (probeStep b).calls ∨ ((probeStep b).err = none ∧
        (c ∈ (peopleStep b (pyStrip q)).calls ∨ ((peopleStep b (pyStrip q)).err = none ∧
          (c ∈ (servicesStep b).calls ∨ ((servicesStep b).err = none ∧
            (c ∈ (calendarStep b).calls ∨ ((calendarStep b).err = none ∧
              c ∈ (groupsStep b).calls))))))) := by
    intro c
    rw [runSearch_eq_steps]
    simp only [mem_seqStep_calls]
  constructor
  · constructor
    · intro hmem
      rcases (hchain _).mp hmem with h | ⟨hp, h⟩
      · rw [probeStep_calls] at h
        exact absurd h (by decide)
      · rcases h with h | ⟨hpe, h⟩
        · have hret := (peopleStep_retry_mem b (pyStrip q)).mp h
          exact ⟨(hchain _).mpr (Or.inr ⟨hp,
            Or.inl (peopleStep_primary_mem b (pyStrip q))⟩), hret.1, hret.2⟩
        · rcases h with h | ⟨hse, h⟩
          · rw [servicesStep_calls] at h
            exact absurd h (by decide)
          · rcases h with h | ⟨hce, h⟩
            · rw [calendarStep_calls] at h
              exact absurd h (by decide)
            · rw [groupsStep_calls] at h
              exact absurd h (by decide)
    · rintro ⟨hpmem, hemp, hrc⟩
      rcases (hchain _).mp hpmem with h | ⟨hp, h⟩
      · rw [probeStep_calls] at h
        exact absurd h (by decide)
      · exact (hchain _).mpr (Or.inr ⟨hp,
          Or.inl ((peopleStep_retry_mem b (pyStrip q)).mpr ⟨hemp, hrc⟩)⟩)
  · intro p names hr hne hm hemp hrc
    obtain ⟨⟨st, body⟩, p0, hq, hs, hb, hd⟩ := hemp
    simp only [Response.status, Response.body] at hs hb
    subst hs
    subst hb
    rw [peopleStep_emptyOk_retry b (pyStrip q) p0 hq hd hrc,
      seqStep_of_err_none _ _ rfl]
    simp [peopleRetryStep_hit b (firstToken (pyStrip q)) p names hr hne hm]

/-- C4, witness: on a backend whose primary People call is `EmptyOk` and
whose retry finds one record, querying "Alex Miller" issues the retry and
labels the fragment as a similar-name match. -/
theorem c4_witness :
    ApiCall.peopleRetry ∈ (runSearch retryHitBackend "Alex Miller").calls ∧
    (peopleStep retryHitBackend (pyStrip "Alex Miller")).frags =
      ["No exact match, but found similar names: Alexa (Member)"] := by
  have h := c4_retry_iff retryHitBackend "Alex Miller"
  have hemp : emptyOk retryHitBackend.peoplePrimary :=
    ⟨emptyListResp, ⟨some []⟩, rfl, rfl, rfl, rfl⟩
  have hrc : retryCondition (pyStrip "Alex Miller") := by
    constructor
    · decide
    · decide
  constructor
  · exact h.1.mpr ⟨by decide, hemp, hrc⟩
  · have h2 := h.2 ⟨some [alexaRecord]⟩ ["Alexa (Member)"] rfl (by decide) rfl hemp hrc
    rw [h2]
    decide

end PCO

namespace PCO

/-- C6, counterexample: a Gatherings (services) call that succeeds with an
empty record list still adds a fragment — the bare header — so the Context
String is not fragment-free. -/
theorem c6_counterexample :
    emptyOk servicesEmptyBackend.services ∧
    (runSearch servicesEmptyBackend "Alice").frags = ["Available Gathering Types: "] ∧
    (search_context servicesEmptyBackend "Alice").map Prod.fst =
      Except.ok "Available Gathering Types: " :=
  ⟨⟨emptyListResp, ⟨some []⟩, rfl, rfl, rfl, rfl⟩, rfl, rfl⟩

/-- C6, amended: People (when neither the primary nor a fired retry yields
records), Calendar and Groups calls with zero usable records contribute no
fragment, but the Gatherings (services) adapter contributes its fragment on
every 200 response, even with zero records. -/
theorem c6_amended (b : Backend) (clean : String) :
    (emptyOk b.peoplePrimary → (¬ retryCondition clean ∨ ¬ nonEmptyOk b.peopleRetry) →
      (peopleStep b clean).frags = []) ∧
    (emptyOk b.calendar → (calendarStep b).frags = []) ∧
    (emptyOk b.groups → (groupsStep b).frags = []) ∧
    (∀ p, b.services = some ⟨200, some p⟩ → p.data.getD [] = [] →
      (servicesStep b).frags = ["Available Gathering Types: "]) := by
  refine ⟨?_, ?_, ?_, ?_⟩
  · rintro ⟨⟨st, body⟩, p, hq, hs, hb, hd⟩ hor
    simp only [Response.status, Response.body] at hs hb
    subst hs
    subst hb
    by_cases hrc : retryCondition clean
    · rcases hor with hor | hor
      · exact absurd hrc hor
      · rw [peopleStep_emptyOk_retry b clean p hq hd hrc,
          seqStep_of_err_none _ _ rfl]
        simp [peopleRetryStep_frags_empty b (firstToken clean) hor]
    · simp [peopleStep_emptyOk_skip b clean p hq hd hrc]
  · rintro ⟨⟨st, body⟩, p, hq, hs, hb, hd⟩
    simp only [Response.status, Response.body] at hs hb
    subst hs
    subst hb
    simp [calendarStep_emptyOk b p hq hd]
  · rintro ⟨⟨st, body⟩, p, hq, hs, hb, hd⟩
    simp only [Response.status, Response.body] at hs hb
    subst hs
    subst hb
    simp [groupsStep_emptyOk b p hq hd]
  · intro p hq hd
    rw [servicesStep_rendered b p [] hq (by simp [hd, renderAll])]
    rfl

/-- C6, witness: the amended theorem at the all-`EmptyOk` backend with the
short query "Al". -/
theorem c6_witness :
    (peopleStep allEmptyOkBackend "Al").frags = [] ∧
    (calendarStep allEmptyOkBackend).frags = [] ∧
    (groupsStep allEmptyOkBackend).frags = [] ∧
    (servicesStep allEmptyOkBackend).frags = ["Available Gathering Types: "] := by
  have h := c6_amended allEmptyOkBackend "Al"
  have he : emptyOk (some emptyListResp) := ⟨emptyListResp, ⟨some []⟩, rfl, rfl, rfl, rfl⟩
  exact ⟨h.1 he (Or.inl fun hc => absurd hc.1 (by decide)), h.2.1 he, h.2.2.1 he,
    h.2.2.2 ⟨some []⟩ rfl rfl⟩

/-- C7, counterexample: a Groups call that succeeds with zero records
appends no Diagnostic Line at all (the `if groups:` of app.py has no
`else`), while the Calendar adapter in the same run does log its
zero-events line: the two adapters are not identical in shape. -/
theorem c7_counterexample :
    emptyOk calGroupsEmptyBackend.groups ∧
    (groupsStep calGroupsEmptyBackend).logs = [] ∧
    (runSearch calGroupsEmptyBackend "Alice").logs =
      ["❌ Org Check: Failed to connect to PCO Root.", "✅ Calendar API: 0 events found."] :=
  ⟨⟨emptyListResp, ⟨some []⟩, rfl, rfl, rfl, rfl⟩, rfl, rfl⟩

/-- C7, amended: Groups matches Calendar in shape only for non-empty
success (one found-count Diagnostic Line plus one fragment); on `EmptyOk`
the Groups step appends neither a Diagnostic Line nor a fragment, while the
Calendar step records its zero-matches line. -/
theorem c7_amended (b : Backend) :
    (emptyOk b.groups → groupsStep b = ⟨[ApiCall.groups], [], [], none⟩) ∧
    (emptyOk b.calendar →
      calendarStep b = ⟨[ApiCall.calendar], [], ["✅ Calendar API: 0 events found."], none⟩) ∧
    (∀ p ns, b.groups = some ⟨200, some p⟩ → ¬ p.data.getD [] = [] →
      renderAll renderName (p.data.getD []) = Except.ok ns →
      groupsStep b = ⟨[ApiCall.groups],
        ["Found in Groups: " ++ String.intercalate ", " ns],
        ["✅ Groups API: Found " ++ toString (p.data.getD []).length ++ " groups."], none⟩) := by
  refine ⟨?_, ?_, ?_⟩
  · rintro ⟨⟨st, body⟩, p, hq, hs, hb, hd⟩
    simp only [Response.status, Response.body] at hs hb
    subst hs
    subst hb
    exact groupsStep_emptyOk b p hq hd
  · rintro ⟨⟨st, body⟩, p, hq, hs, hb, hd⟩
    simp only [Response.status, Response.body] at hs hb
    subst hs
    subst hb
    exact calendarStep_emptyOk b p hq hd
  · intro p ns hq hne hm
    exact groupsStep_rendered b p ns hq hne hm

/-- C7, witness: the amended theorem at a backend whose Calendar and Groups
calls are both `EmptyOk`. -/
theorem c7_witness :
    groupsStep calGroupsEmptyBackend = ⟨[ApiCall.groups], [], [], none⟩ ∧
    calendarStep calGroupsEmptyBackend =
      ⟨[ApiCall.calendar], [], ["✅ Calendar API: 0 events found."], none⟩ := by
  have h := c7_amended calGroupsEmptyBackend
  have he : emptyOk (some emptyListResp) := ⟨emptyListResp, ⟨some []⟩, rfl, rfl, rfl, rfl⟩
  exact ⟨h.1 he, h.2.1 he⟩

end PCO

namespace PCO

/-- C8: whenever all four search adapters produce a fragment, the Context
String is exactly those four fragments joined by newlines in the fixed
order People, Gatherings, Calendar, Groups. -/
theorem c8_fragment_order (b : Backend) (q : String) (pf gf cf grf : String)
    (h : (runSearch b q).err = none)
    (hp : (peopleStep b (pyStrip q)).frags = [pf])
    (hg : (servicesStep b).frags = [gf])
    (hc : (calendarStep b).frags = [cf])
    (hgr : (groupsStep b).frags = [grf]) :
    (search_context b q).map Prod.fst =
      Except.ok (pf ++ "\n" ++ gf ++ "\n" ++ cf ++ "\n" ++ grf) := by
  have h' := h
  rw [runSearch_eq_steps] at h'
  simp only [seqStep_err_none] at h'
  obtain ⟨e1, e2, e3, e4, e5⟩ := h'
  have hparts := runSearch_parts b q e1 e2 e3 e4
  have hfr : (runSearch b q).frags = [pf, gf, cf, grf] := by
    rw [hparts]
    simp [probeStep_frags, hp, hg, hc, hgr]
  have hint : String.intercalate "\n" [pf, gf, cf, grf] =
      pf ++ "\n" ++ gf ++ "\n" ++ cf ++ "\n" ++ grf := rfl
  have hne : ¬ (pf ++ "\n" ++ gf ++ "\n" ++ cf ++ "\n" ++ grf) = "" := by
    intro he
    have hlen := congrArg String.length he
    simp only [String.length_append, show ("\n").length = 1 from rfl,
      show ("" : String).length = 0 from rfl] at hlen
    omega
  rw [search_context_of_ok b q h, hfr, hint]
  simp only [if_neg hne]
  rfl

/-- C8, witness: a backend where all four adapters find one record each. -/
theorem c8_witness :
    (search_context fullHitBackend "Alexa").map Prod.fst =
      Except.ok ("Found in People Directory: Alexa (Member)" ++ "\n" ++
        "Available Gathering Types: Sunday Gathering" ++ "\n" ++
        "Found in Calendar: Picnic" ++ "\n" ++ "Found in Groups: Alpha Group") :=
  c8_fragment_order fullHitBackend "Alexa"
    "Found in People Directory: Alexa (Member)"
    "Available Gathering Types: Sunday Gathering"
    "Found in Calendar: Picnic"
    "Found in Groups: Alpha Group"
    rfl rfl rfl rfl rfl

/-- C9: a record whose `attributes` dictionary is present but lacks the
`name` or `status` field renders with the documented default labels
("Unknown" in People, "Unnamed" in Gatherings) instead of raising or
failing the call: for any list of attribute dictionaries, however sparse,
the People and Services steps succeed and render each record with `.get`
defaults. -/
theorem c9_missing_fields_default (b : Backend) (clean : String) (al al2 : List Attrs)
    (h : b.peoplePrimary = some ⟨200, some ⟨some (al.map fun a => (⟨some a⟩ : Record))⟩⟩)
    (hne : al ≠ [])
    (h2 : b.services = some ⟨200, some ⟨some (al2.map fun a => (⟨some a⟩ : Record))⟩⟩) :
    (peopleStep b clean).err = none ∧
    (peopleStep b clean).frags = ["Found in People Directory: " ++
      String.intercalate ", " (al.map renderPersonTotal)] ∧
    (servicesStep b).err = none ∧
    (servicesStep b).frags = ["Available Gathering Types: " ++
      String.intercalate ", " ((al2.take 8).map fun a => a.name.getD "Unnamed")] := by
  have hpe := peopleStep_rendered b clean ⟨some (al.map fun a => (⟨some a⟩ : Record))⟩
    (al.map renderPersonTotal) h (by simpa using hne)
    (by simpa using renderAll_renderPerson_total al)
  have hsv := servicesStep_rendered b ⟨some (al2.map fun a => (⟨some a⟩ : Record))⟩
    ((al2.take 8).map fun a => a.name.getD "Unnamed") h2
    (by
      have htk : ((al2.map fun a => (⟨some a⟩ : Record)).take 8) =
          ((al2.take 8).map fun a => (⟨some a⟩ : Record)) :=
        (List.map_take _ _ _).symm
      show renderAll renderName (((⟨some (al2.map fun a =>
        (⟨some a⟩ : Record))⟩ : ListPayload).data.getD []).take 8) = _
      rw [show ((⟨some (al2.map fun a => (⟨some a⟩ : Record))⟩ :
        ListPayload).data.getD []) = al2.map fun a => (⟨some a⟩ : Record) from rfl, htk]
      exact renderAll_renderName_total (al2.take 8))
  exact ⟨by rw [hpe], by rw [hpe], by rw [hsv], by rw [hsv]⟩

/-- C9, witness: one People record and one Services record with neither
`name` nor `status`: both render with the default labels and nothing
raises. -/
theorem c9_witness :
    (peopleStep noFieldsBackend "Alice").err = none ∧
    (peopleStep noFieldsBackend "Alice").frags =
      ["Found in People Directory: Unknown (Unknown)"] ∧
    (servicesStep noFieldsBackend).frags = ["Available Gathering Types: Unnamed"] := by
  have h := c9_missing_fields_default noFieldsBackend "Alice"
    [⟨none, none⟩] [⟨none, none⟩] rfl (by decide) rfl
  refine ⟨h.1, ?_, ?_⟩
  · rw [h.2.1]
    decide
  · rw [h.2.2.2]
    decide

end PCO
